import Mathlib

/-!
Shallow embedding of the `cpp_lib_updates` repository: a C++ library
demonstrating API evolution with versioned namespaces.  Every function
that prints to `std::cout` is modelled as a pure function returning the
exact string it writes.  `std::shared_ptr` is modelled as `Option`
(`none` is the null pointer); `std::make_shared` always produces `some`.
C++ inline namespaces (`v_0`, `v_1`, `inline_v_1`) become Lean name
prefixes.
-/

/-- The implementation-private class `a::internal_class`
(src/src/api.cpp, lines 5-11): one `int` field set by the constructor. -/
structure a.internal_class where
  _value : Int

/-- `a::internal_class::get_value` (src/src/api.cpp line 8). -/
def a.internal_class.get_value (c : a.internal_class) : Int :=
  c._value

/-- `a::internal_class_sptr = std::shared_ptr<internal_class>`
(api.hpp line 10); `none` models the null pointer. -/
abbrev a.internal_class_sptr : Type :=
  Option a.internal_class

/-- `a::v_0::create_internal_class_instance` (src/src/api.cpp lines 33-36):
`std::make_shared<internal_class>(value)`, which never yields null. -/
def a.v_0.create_internal_class_instance (value : Int) : a.internal_class_sptr :=
  some { _value := value }

/-- `a::v_0::get_value` (src/src/api.cpp lines 38-41): dereferences the
handle and calls the private method; a null handle would not complete,
modelled by `none`. -/
def a.v_0.get_value (class_ptr : a.internal_class_sptr) : Option Int :=
  match class_ptr with
  | some c => some c.get_value
  | none => none

/-- `a::v_0::foo(int arg)` (src/src/api.cpp lines 16-19): prints the
argument. -/
def a.v_0.foo (arg : Int) : String :=
  "hello from foo with arg: " ++ toString arg ++ "\n"

/-- `a::v_0::foo()` (src/src/api.cpp lines 22-25): zero-argument
compatibility form, forwards to `foo(0)`. -/
def a.v_0.fooNoArg : String :=
  a.v_0.foo 0

/-- A concrete implementation of the abstract class
`a::v_0::some_class_interface` (api.hpp lines 26-32): a carrier type `C`
together with overrides of the two pure virtual methods.  Dynamic
dispatch through a `some_class_interface&` is application of these
overrides. -/
structure a.v_0.some_class_interface (C : Type) where
  f1 : C → Int
  f2 : C → Int

/-- `a::v_0::use_some_class` (src/src/api.cpp lines 27-30): prints the
results of `arg.f1()` and `arg.f2()` obtained through the interface. -/
def a.v_0.use_some_class {C : Type} (iface : a.v_0.some_class_interface C) (arg : C) : String :=
  "hello from use_some_class. arg.f1(): " ++ toString (iface.f1 arg) ++
    " arg.f2(): " ++ toString (iface.f2 arg) ++ "\n"

/-- `a::v_1::params` (api.hpp lines 14-17): the new-generation record;
the added field `age` defaults to `0`. -/
structure a.v_1.params where
  name : String
  age : Int := 0

/-- `a::v_1::init` (src/src/api.cpp lines 48-51): prints both fields of
the record. -/
def a.v_1.init (init_params : a.v_1.params) : String :=
  "hello from init:  name: " ++ init_params.name ++ " age: " ++
    toString init_params.age ++ "\n"

/-- `a::v_0::params` (src/src/api_compatibility.cpp lines 5-7): the
old-generation record, `name` only. -/
structure a.v_0.params where
  name : String

/-- `a::v_0::init` (src/src/api_compatibility.cpp lines 10-17): the
compatibility shim; fills a new-generation record (leaving `age` at its
default) and delegates to `a::v_1::init`. -/
def a.v_0.init (init_params : a.v_0.params) : String :=
  let new_params : a.v_1.params := { name := init_params.name }
  a.v_1.init new_params

/-- `a::inline_v_1::bar` (api.hpp line 43): returns the version-tagged
constant `20`. -/
def a.inline_v_1.bar : Int :=
  20

/-- `a::inline_v_1::some_class` (api.hpp lines 46-56): concrete
implementation of the capability, storing the two constructor
arguments. -/
structure a.inline_v_1.some_class where
  _m1 : Int
  _m2 : Int

/-- `a::inline_v_1::some_class::f1` (api.hpp line 49). -/
def a.inline_v_1.some_class.f1 (c : a.inline_v_1.some_class) : Int :=
  c._m1

/-- `a::inline_v_1::some_class::f2` (api.hpp line 50). -/
def a.inline_v_1.some_class.f2 (c : a.inline_v_1.some_class) : Int :=
  c._m2

/-- `a::inline_v_1::some_class::f3` (api.hpp line 51): empty body. -/
def a.inline_v_1.some_class.f3 (_ : a.inline_v_1.some_class) : Unit :=
  ()

/-- `a::inline_v_1::some_class::f4` (api.hpp line 52): empty body. -/
def a.inline_v_1.some_class.f4 (_ : a.inline_v_1.some_class) : Unit :=
  ()

/-- The vtable of `some_class` as an implementation of
`some_class_interface`. -/
def a.inline_v_1.some_class.as_interface : a.v_0.some_class_interface a.inline_v_1.some_class :=
  { f1 := a.inline_v_1.some_class.f1, f2 := a.inline_v_1.some_class.f2 }

/-- A second conforming implementation of the capability, with an extra
member, used to instantiate the substitution property of
`use_some_class` with two distinct concrete types (spec §4.4: any two
conforming implementations). -/
structure a.inline_v_1.another_class where
  _m1 : Int
  _m2 : Int
  _extra : Int

/-- The vtable of `another_class` as an implementation of
`some_class_interface`; `_extra` is not exposed. -/
def a.inline_v_1.another_class.as_interface : a.v_0.some_class_interface a.inline_v_1.another_class :=
  { f1 := fun c => c._m1, f2 := fun c => c._m2 }

/-- `a::inline_v_1::exposed_internal_class` (api.hpp lines 60-66):
facade holding only the opaque handle. -/
structure a.inline_v_1.exposed_internal_class where
  _impl : a.internal_class_sptr

/-- The constructor of `exposed_internal_class` (api.hpp line 61):
obtains the handle from the factory. -/
def a.inline_v_1.exposed_internal_class.make (value : Int) : a.inline_v_1.exposed_internal_class :=
  { _impl := a.v_0.create_internal_class_instance value }

/-- `a::inline_v_1::exposed_internal_class::get_value` (api.hpp
line 62): redirects to the free function `a::get_value`. -/
def a.inline_v_1.exposed_internal_class.get_value (e : a.inline_v_1.exposed_internal_class) : Option Int :=
  a.v_0.get_value e._impl

/-- C1: for every string `s`, the old-generation `init` on the record
with `name = s` produces the same output as the new-generation `init`
on the record with `name = s` and `age` left at its default. -/
theorem claim_C1 (s : String) :
    a.v_0.init { name := s } = a.v_1.init { name := s } :=
  rfl

/-- C2: the zero-argument compatibility form `foo()` produces exactly
the output of `foo(0)` with the documented default argument. -/
theorem claim_C2 : a.v_0.fooNoArg = a.v_0.foo 0 :=
  rfl

/-- C3: for every integer `v`, `get_value` on the handle returned by
`create_internal_class_instance v` successfully returns `v`. -/
theorem claim_C3 (v : Int) :
    a.v_0.get_value (a.v_0.create_internal_class_instance v) = some v :=
  rfl

/-- C4: the output of `use_some_class` depends only on the values the
capability's operations return: any two concrete implementations whose
`f1`/`f2` results agree yield identical output, and when the results
are `(5, 6)` the output contains the strings "5" and "6". -/
theorem claim_C4 :
    (∀ (C₁ C₂ : Type) (i₁ : a.v_0.some_class_interface C₁)
       (i₂ : a.v_0.some_class_interface C₂) (x₁ : C₁) (x₂ : C₂),
       i₁.f1 x₁ = i₂.f1 x₂ → i₁.f2 x₁ = i₂.f2 x₂ →
       a.v_0.use_some_class i₁ x₁ = a.v_0.use_some_class i₂ x₂) ∧
    (∀ (C : Type) (i : a.v_0.some_class_interface C) (x : C),
       i.f1 x = 5 → i.f2 x = 6 →
       (∃ s t, a.v_0.use_some_class i x = s ++ "5" ++ t) ∧
       (∃ u w, a.v_0.use_some_class i x = u ++ "6" ++ w)) := by
  constructor
  · intro C₁ C₂ i₁ i₂ x₁ x₂ h1 h2
    unfold a.v_0.use_some_class
    rw [h1, h2]
  · intro C i x h1 h2
    unfold a.v_0.use_some_class
    rw [h1, h2]
    exact ⟨⟨"hello from use_some_class. arg.f1(): ", " arg.f2(): 6\n", by decide⟩,
           ⟨"hello from use_some_class. arg.f1(): 5 arg.f2(): ", "\n", by decide⟩⟩

/-- Witness for C4: `some_class (5, 6)` and `another_class (5, 6, 99)`
(a different concrete type with an extra member) produce identical
output, and that output contains "5". -/
theorem claim_C4_witness :
    a.v_0.use_some_class a.inline_v_1.some_class.as_interface
        { _m1 := 5, _m2 := 6 } =
      a.v_0.use_some_class a.inline_v_1.another_class.as_interface
        { _m1 := 5, _m2 := 6, _extra := 99 } ∧
    (∃ s t, a.v_0.use_some_class a.inline_v_1.some_class.as_interface
        { _m1 := 5, _m2 := 6 } = s ++ "5" ++ t) :=
  ⟨claim_C4.1 a.inline_v_1.some_class a.inline_v_1.another_class
      a.inline_v_1.some_class.as_interface a.inline_v_1.another_class.as_interface
      { _m1 := 5, _m2 := 6 } { _m1 := 5, _m2 := 6, _extra := 99 } rfl rfl,
   (claim_C4.2 a.inline_v_1.some_class a.inline_v_1.some_class.as_interface
      { _m1 := 5, _m2 := 6 } rfl rfl).1⟩

/-- C5: for every old-generation record `p`, the shim's output equals
exactly the new-generation `init` on the record that copies `p`'s name,
and the record the shim builds leaves `age` at its default `0`; there
is no other effect than the delegation. -/
theorem claim_C5 (p : a.v_0.params) :
    a.v_0.init p = a.v_1.init { name := p.name } ∧
    ({ name := p.name } : a.v_1.params).age = 0 :=
  ⟨rfl, rfl⟩

/-- C6: for every integer `v`, the facade built with `v` answers its
`get_value()` method exactly as `get_value (create_internal_class_instance v)`,
the composition of the free functions. -/
theorem claim_C6 (v : Int) :
    (a.inline_v_1.exposed_internal_class.make v).get_value =
      a.v_0.get_value (a.v_0.create_internal_class_instance v) :=
  rfl

/-- C7: `get_value` completes successfully on every handle the factory
produces: for every integer `v` the composition returns `some` value
(all other public operations are total functions by construction). -/
theorem claim_C7 (v : Int) :
    (a.v_0.get_value (a.v_0.create_internal_class_instance v)).isSome = true :=
  rfl

/-- C8: `bar` is a pure function of no arguments and returns the
version-tagged constant `20` in `inline_v_1`. -/
theorem claim_C8 : a.inline_v_1.bar = 20 :=
  rfl

/-- C9: `init` on a record with `name = "John"` and `age` left unset
produces output containing "John" and containing the default age
value "0". -/
theorem claim_C9 :
    (∃ s t, a.v_1.init { name := "John" } = s ++ "John" ++ t) ∧
    (∃ u w, a.v_1.init { name := "John" } = u ++ "0" ++ w) :=
  ⟨⟨"hello from init:  name: ", " age: 0\n", by decide⟩,
   ⟨"hello from init:  name: John age: ", "\n", by decide⟩⟩

/-- C10: `some_class` constructed with `(x, y)` returns `x` from `f1`
and `y` from `f2`; being pure values, repeated calls agree. -/
theorem claim_C10 (x y : Int) :
    ({ _m1 := x, _m2 := y } : a.inline_v_1.some_class).f1 = x ∧
    ({ _m1 := x, _m2 := y } : a.inline_v_1.some_class).f2 = y :=
  ⟨rfl, rfl⟩
